import Mathlib

/-!
Shallow embedding of `django-dynamic-models` (files `dynamic_models/models.py`
and `dynamic_models/utils.py`) and proofs about its schema-definition layer.

Python dicts are embedded as association lists with unique keys; dictionary
deletion and insertion are modelled accordingly.  Python truthiness on the
JSON-ish values stored in a field definition's `kwargs` mapping is made
explicit.  Exceptions are modelled with `Except`; functions whose Python
originals have observable side effects (row persistence, DDL execution,
cursor lifecycle) are written in explicit state-passing style, returning
the resulting state even on the exceptional path so that frame conditions
("no DDL executed", "record unchanged") are statable.
-/

namespace DynamicModels

set_option autoImplicit false

/-! ## Association-list primitives (embedding of Python `dict`) -/

/-- `m.get(k)` / `m[k]` lookup on a dict embedded as an association list. -/
def afind {α : Type} : List (String × α) → String → Option α
  | [], _ => none
  | (k, v) :: rest, key => if k = key then some v else afind rest key

/-- `m[k] = v` on a dict: replace the binding if the key is present,
otherwise append a fresh binding. -/
def aset {α : Type} : List (String × α) → String → α → List (String × α)
  | [], key, v => [(key, v)]
  | (k, w) :: rest, key, v =>
    if k = key then (key, v) :: rest else (k, w) :: aset rest key v

/-- Drop every binding of `key` (a dict has at most one). -/
def aremoveAll {α : Type} : List (String × α) → String → List (String × α)
  | [], _ => []
  | (k, v) :: rest, key =>
    if k = key then aremoveAll rest key else (k, v) :: aremoveAll rest key

/-- `del m[k]` on a dict: remove the binding for `k` when present,
`none` (KeyError) when absent. -/
def adel {α : Type} (m : List (String × α)) (key : String) :
    Option (List (String × α)) :=
  match afind m key with
  | none => none
  | some _ => some (aremoveAll m key)

/-! ## `on_delete` policies and kwarg values

`models.py` stores a field's keyword arguments as a JSON-like mapping
(`FieldKwargsJSON`). The `on_delete` entry may hold an executable Django
on-delete policy (one of the module-level callables of `django.db.models`)
or its persisted string token. -/

/-- The executable on-delete policies exposed as attributes of
`django.db.models` (the targets of `getattr(models, name)` in
`FieldKwargsJSON._convert_on_delete_to_function`). -/
inductive OnDeletePolicy : Type
  | CASCADE
  | PROTECT
  | RESTRICT
  | SET_NULL
  | SET_DEFAULT
  | DO_NOTHING
deriving DecidableEq

/-- `policy.__name__` for an on-delete policy. -/
def OnDeletePolicy.pyName : OnDeletePolicy → String
  | .CASCADE => "CASCADE"
  | .PROTECT => "PROTECT"
  | .RESTRICT => "RESTRICT"
  | .SET_NULL => "SET_NULL"
  | .SET_DEFAULT => "SET_DEFAULT"
  | .DO_NOTHING => "DO_NOTHING"

/-- `getattr(models, s)` restricted to the on-delete policies: resolves a
stored token back to the executable policy, `none` (AttributeError) on an
unrecognized token. -/
def getattrModels (s : String) : Option OnDeletePolicy :=
  if s = "CASCADE" then some .CASCADE
  else if s = "PROTECT" then some .PROTECT
  else if s = "RESTRICT" then some .RESTRICT
  else if s = "SET_NULL" then some .SET_NULL
  else if s = "SET_DEFAULT" then some .SET_DEFAULT
  else if s = "DO_NOTHING" then some .DO_NOTHING
  else none

/-- A value stored in a field definition's `kwargs` mapping. -/
inductive KwargValue : Type
  | bool (b : Bool)
  | int (n : Int)
  | str (s : String)
  | policy (p : OnDeletePolicy)
deriving DecidableEq

/-- Python truthiness of a kwarg value (`if value:`). -/
def KwargValue.truthy : KwargValue → Bool
  | .bool b => b
  | .int n => decide (n ≠ 0)
  | .str s => decide (s ≠ "")
  | .policy _ => true

/-- `callable(value)` on a kwarg value: only the executable policies are
callable. -/
def KwargValue.isCallable : KwargValue → Bool
  | .policy _ => true
  | _ => false

/-- `isinstance(value, str)` on a kwarg value. -/
def KwargValue.isPyStr : KwargValue → Bool
  | .str _ => true
  | _ => false

/-- A field definition's `kwargs` mapping (a Python dict persisted as JSON). -/
abbrev Kwargs := List (String × KwargValue)

/-! ## `FieldKwargsJSON` conversions (`models.py` lines 101-119) -/

/-- `FieldKwargsJSON._convert_on_delete_to_function`: if the mapping is
`None` or has no `on_delete` entry it is returned unchanged; a string
entry is resolved with `getattr(models, token)` (AttributeError on an
unrecognized token, surfaced as `Except.error`); a non-string entry is
left alone. -/
def convert_on_delete_to_function (raw_value : Option Kwargs) :
    Except String (Option Kwargs) :=
  match raw_value with
  | none => .ok none
  | some kw =>
    match afind kw "on_delete" with
    | none => .ok (some kw)
    | some v =>
      match v with
      | .str token =>
        match getattrModels token with
        | none => .error "AttributeError"
        | some p => .ok (some (aset kw "on_delete" (.policy p)))
      | _ => .ok (some kw)

/-- `FieldKwargsJSON._convert_on_delete_to_string`: if the mapping is
`None` or has no `on_delete` entry it is returned unchanged; a callable
entry is replaced by its `__name__`; anything else is left alone. -/
def convert_on_delete_to_string (raw_value : Option Kwargs) : Option Kwargs :=
  match raw_value with
  | none => none
  | some kw =>
    match afind kw "on_delete" with
    | none => some kw
    | some v =>
      match v with
      | .policy p => some (aset kw "on_delete" (.str p.pyName))
      | _ => some kw

/-! ## `django.utils.text.slugify` (ASCII fragment) and name derivation

`slugify(value)` (with `allow_unicode=False`) NFKD-normalizes and
ASCII-encodes, lowercases, deletes every character outside `[\w\s-]`,
collapses every run of `[-\s]` characters into one hyphen, and strips
leading/trailing hyphens and underscores.  For ASCII input the
normalize/encode step is the identity, which is the fragment embedded
here. -/

/-- Python regex `\w` after ASCII encoding: `[a-zA-Z0-9_]`. -/
def isWordChar (c : Char) : Bool := c.isAlphanum || c = '_'

/-- Python regex `\s` (ASCII): space, tab, newline, carriage return,
form feed, vertical tab. -/
def isPySpace (c : Char) : Bool :=
  c = ' ' || c = '\t' || c = '\n' || c = '\r' || c = '\x0c' || c = '\x0b'

/-- `re.sub(r"[-\s]+", "-", value)`: collapse each run of hyphens and
whitespace into a single hyphen.  The flag records whether the previous
character belonged to such a run. -/
def collapseDashRuns : Bool → List Char → List Char
  | _, [] => []
  | inRun, c :: rest =>
    if c = '-' || isPySpace c then
      if inRun then collapseDashRuns true rest
      else '-' :: collapseDashRuns true rest
    else c :: collapseDashRuns false rest

/-- `value.strip("-_")`: drop leading and trailing hyphens/underscores. -/
def stripDashUnderscore (cs : List Char) : List Char :=
  ((cs.dropWhile (fun c => c = '-' || c = '_')).reverse.dropWhile
      (fun c => c = '-' || c = '_')).reverse

/-- `django.utils.text.slugify` on ASCII input. -/
def slugify (s : String) : String :=
  let lowered := s.data.map Char.toLower
  let kept := lowered.filter (fun c => isWordChar c || isPySpace c || c = '-')
  String.mk (stripDashUnderscore (collapseDashRuns false kept))

/-- Python `s.replace("-", "_")`. -/
def replaceDashWithUnderscore (s : String) : String :=
  String.mk (s.data.map (fun c => if c = '-' then '_' else c))

/-! ## `ModelSchema` (`models.py` lines 13-75) -/

/-- The persisted columns of a `ModelSchema` definition record, plus the
process-wide `config.dynamic_models_app_label()` the instance reads
through its `app_label` property (carried here as data because the
embedding has no ambient configuration). -/
structure ModelSchema : Type where
  name : String
  db_name : String
  managed : Bool
  db_table_name : Option String
  app_label : String
deriving DecidableEq

/-- `ModelSchema._default_db_table_name`:
`slugify(self.name).replace("-", "_")` prefixed by the app label. -/
def ModelSchema.default_db_table_name (m : ModelSchema) : String :=
  m.app_label ++ "_" ++ replaceDashWithUnderscore (slugify m.name)

/-- `ModelSchema.db_table`: the override when it is truthy (non-`None`
and non-empty), the derived default otherwise. -/
def ModelSchema.db_table (m : ModelSchema) : String :=
  match m.db_table_name with
  | some t => if t = "" then m.default_db_table_name else t
  | none => m.default_db_table_name

/-! ## `FieldSchema` (`models.py` lines 122-198) -/

/-- The persisted columns of a `FieldSchema` definition record (with its
owning `ModelSchema` inlined in place of the foreign key). -/
structure FieldSchema : Type where
  name : String
  model_schema : ModelSchema
  class_name : String
  kwargs : Kwargs
deriving DecidableEq

/-- `FieldSchema._PROHIBITED_NAMES`. -/
def PROHIBITED_NAMES : List String := ["__module__", "_declared"]

/-- `FieldSchema.get_prohibited_names` (currently backend-independent). -/
def get_prohibited_names : List String := PROHIBITED_NAMES

/-- `FieldSchema.db_column`: `slugify(self.name).replace("-", "_")`. -/
def FieldSchema.db_column (f : FieldSchema) : String :=
  replaceDashWithUnderscore (slugify f.name)

/-- `FieldSchema.null` getter: `self.kwargs.get("null", False)`. -/
def FieldSchema.null (f : FieldSchema) : KwargValue :=
  match afind f.kwargs "null" with
  | some v => v
  | none => .bool false

/-- `FieldSchema.null` setter: `self.kwargs["null"] = value`. -/
def FieldSchema.set_null (f : FieldSchema) (v : KwargValue) : FieldSchema :=
  { f with kwargs := aset f.kwargs "null" v }

/-! ## Definition-entity state machine

`ModelSchema.__init__` / `FieldSchema.__init__` capture the initial name
(and, for fields, the initial nullability) and construct a schema editor
only when the definition is managed.  The editors themselves live in
`dynamic_models/schema.py`, which is not part of the sources; following
the spec they are modelled purely by the DDL statements they execute. -/

/-- Modelled from the spec: one DDL statement issued by the (missing)
`ModelSchemaEditor` / `FieldSchemaEditor` of `dynamic_models/schema.py`
against the physical table. -/
inductive DdlAction : Type
  | updateTable (table : String)
  | dropTable (table : String)
  | updateColumn (table column : String)
  | dropColumn (table column : String)
deriving DecidableEq

/-- Modelled from the spec: the errors of the missing
`dynamic_models/exceptions.py`; per the spec's error taxonomy both
`NullFieldChangedError` and `InvalidFieldNameError` are validation
errors raised before any DDL. -/
inductive DynError : Type
  | nullFieldChanged (msg : String)
  | invalidFieldName (msg : String)
deriving DecidableEq

/-- Modelled from the spec: membership of an error in the spec's
ValidationError taxonomy. -/
def DynError.isValidationError : DynError → Bool
  | .nullFieldChanged _ => true
  | .invalidFieldName _ => true

/-- Observable persistent state: the definition records persisted by
`super().save()` / removed by `super().delete()`, and the trace of DDL
statements executed by the schema editors. -/
structure DbState : Type where
  saved_models : List ModelSchema
  saved_fields : List FieldSchema
  ddl : List DdlAction
deriving DecidableEq

/-- An in-memory `ModelSchema` instance: the record state plus what
`__init__` captured (`self._initial_name`) and whether a schema editor
was constructed (`self._schema_editor is not None`, true exactly when
`self.managed`). -/
structure ModelSchemaInstance : Type where
  schema : ModelSchema
  initial_name : String
  has_schema_editor : Bool
deriving DecidableEq

/-- `ModelSchema.__init__` on a loaded or fresh record. -/
def ModelSchemaInstance.mk_init (m : ModelSchema) : ModelSchemaInstance :=
  ⟨m, m.name, m.managed⟩

/-- `ModelSchema.save`: persist the record, then, only if a schema
editor exists, let it reconcile the physical table (modelled from the
spec as one `updateTable` DDL action); finally refresh
`self._initial_name`. -/
def ModelSchemaInstance.save (i : ModelSchemaInstance) (db : DbState) :
    ModelSchemaInstance × DbState :=
  let db1 : DbState := { db with saved_models := db.saved_models ++ [i.schema] }
  let db2 : DbState :=
    if i.has_schema_editor then
      { db1 with ddl := db1.ddl ++ [.updateTable i.schema.db_table] }
    else db1
  ({ i with initial_name := i.schema.name }, db2)

/-- `ModelSchema.delete`: only if a schema editor exists, drop the
physical table (modelled from the spec as one `dropTable` DDL action);
destroy the registry entry; remove the record. -/
def ModelSchemaInstance.delete (i : ModelSchemaInstance) (db : DbState) :
    DbState :=
  let db1 : DbState :=
    if i.has_schema_editor then
      { db with ddl := db.ddl ++ [.dropTable i.schema.db_table] }
    else db
  { db1 with saved_models := db1.saved_models.filter (fun r => ¬ r = i.schema) }

/-- An in-memory `FieldSchema` instance: the record state plus what
`__init__` captured (`self._initial_name`, `self._initial_null`) and
whether a schema editor was constructed (true exactly when
`self.model_schema.managed`). -/
structure FieldSchemaInstance : Type where
  schema : FieldSchema
  initial_name : String
  initial_null : KwargValue
  has_schema_editor : Bool
deriving DecidableEq

/-- `FieldSchema.__init__` on a loaded or fresh record. -/
def FieldSchemaInstance.mk_init (f : FieldSchema) : FieldSchemaInstance :=
  ⟨f, f.name, f.null, f.model_schema.managed⟩

/-- Mutating `instance.null = v` on the in-memory instance. -/
def FieldSchemaInstance.set_null (i : FieldSchemaInstance) (v : KwargValue) :
    FieldSchemaInstance :=
  { i with schema := i.schema.set_null v }

/-- `FieldSchema.validate`: reject narrowing a null field to not-null
(`if self._initial_null and not self.null`), then reject prohibited
names. -/
def FieldSchemaInstance.validate (i : FieldSchemaInstance) :
    Except DynError Unit :=
  if i.initial_null.truthy && !(i.schema.null).truthy then
    .error (.nullFieldChanged
      ("Cannot change NULL field " ++ i.schema.name ++ " to NOT NULL"))
  else if get_prohibited_names.contains i.schema.name then
    .error (.invalidFieldName (i.schema.name ++ " is not a valid field name"))
  else
    .ok ()

/-- `FieldSchema.save`: validate first; only then persist the record and,
only if a schema editor exists, reconcile the physical column (modelled
from the spec as one `updateColumn` DDL action).  The state reached when
the validation exception propagates is returned alongside the error, so
frame conditions are statable. -/
def FieldSchemaInstance.save (i : FieldSchemaInstance) (db : DbState) :
    Except DynError FieldSchemaInstance × DbState :=
  match i.validate with
  | .error e => (.error e, db)
  | .ok _ =>
    let db1 : DbState := { db with saved_fields := db.saved_fields ++ [i.schema] }
    let db2 : DbState :=
      if i.has_schema_editor then
        { db1 with
          ddl := db1.ddl ++
            [.updateColumn i.schema.model_schema.db_table i.schema.db_column] }
      else db1
    (.ok i, db2)

/-- `FieldSchema.delete`: only if a schema editor exists, drop the
physical column (modelled from the spec as one `dropColumn` DDL action);
remove the record. -/
def FieldSchemaInstance.delete (i : FieldSchemaInstance) (db : DbState) :
    DbState :=
  let db1 : DbState :=
    if i.has_schema_editor then
      { db with
        ddl := db.ddl ++
          [.dropColumn i.schema.model_schema.db_table i.schema.db_column] }
    else db
  { db1 with saved_fields := db1.saved_fields.filter (fun r => ¬ r = i.schema) }

/-! ## Introspection and cursor lifecycle (`utils.py` lines 8-36) -/

/-- A Python exception escaping the introspection helpers:
`FieldDoesNotExist` and `LookupError` are the lookup failures the spec
groups as NotFoundError; `dbError` stands for an arbitrary exception
raised by the database introspection backend. -/
inductive PyExn : Type
  | fieldDoesNotExist (msg : String)
  | lookupError (msg : String)
  | dbError (msg : String)
deriving DecidableEq

/-- Modelled from the spec: membership of an exception in the spec's
NotFoundError taxonomy. -/
def PyExn.isNotFoundError : PyExn → Bool
  | .fieldDoesNotExist _ => true
  | .lookupError _ => true
  | .dbError _ => false

/-- Outcome of a Python call: a value or a propagating exception. -/
inductive PyResult (α : Type) : Type
  | ok (a : α)
  | exn (e : PyExn)
deriving DecidableEq

/-- The connection's cursor bookkeeping: how many cursors are currently
open (acquired and not yet closed). -/
structure CursorState : Type where
  openCursors : Nat
deriving DecidableEq

/-- The `with _db_cursor() as c:` statement (`utils.py` lines 32-36).
`connection.cursor()` opens a cursor, then the generator yields.  On
normal completion of the body, control returns into the generator and
`cursor.close()` runs.  When the body raises, `contextlib` throws the
exception into the generator at the `yield`; `_db_cursor` wraps the
`yield` in no `try`/`finally`, so the exception propagates out of the
generator and the `cursor.close()` line after the `yield` never runs:
the cursor stays open. -/
def with_db_cursor {α : Type} (body : CursorState → PyResult α × CursorState)
    (s : CursorState) : PyResult α × CursorState :=
  let s1 : CursorState := ⟨s.openCursors + 1⟩
  match body s1 with
  | (.ok v, s2) => (.ok v, ⟨s2.openCursors - 1⟩)
  | (.exn e, s2) => (.exn e, s2)

/-- One entry of `connection.introspection.get_table_description`:
a column's name and whether it allows NULL (`null_ok`). -/
structure ColumnDesc : Type where
  name : String
  null_ok : Bool
deriving DecidableEq

/-- `_get_table_description(table_name)`: run the backend introspection
call inside the `_db_cursor` scope.  The backend itself is external and
passed as an oracle that may raise. -/
def get_table_description
    (introspection : String → PyResult (List ColumnDesc))
    (table_name : String) (s : CursorState) :
    PyResult (List ColumnDesc) × CursorState :=
  with_db_cursor (fun s1 => (introspection table_name, s1)) s

/-- `db_table_exists(table_name)`: list the backend's table names inside
the `_db_cursor` scope and test membership. -/
def db_table_exists (table_names : PyResult (List String))
    (table_name : String) (s : CursorState) : PyResult Bool × CursorState :=
  with_db_cursor
    (fun s1 =>
      (match table_names with
       | .ok ns => .ok (ns.contains table_name)
       | .exn e => .exn e, s1))
    s

/-- `db_table_has_field(table_name, field_name)`: membership of the field
name in the table description's column names. -/
def db_table_has_field (introspection : String → PyResult (List ColumnDesc))
    (table_name field_name : String) (s : CursorState) :
    PyResult Bool × CursorState :=
  match get_table_description introspection table_name s with
  | (.ok desc, s2) => (.ok ((desc.map (fun c => c.name)).contains field_name), s2)
  | (.exn e, s2) => (.exn e, s2)

/-- The `for field in table_description` loop of `db_field_allows_null`:
`null_ok` of the first column with the given name, if any. -/
def firstFieldNull : List ColumnDesc → String → Option Bool
  | [], _ => none
  | c :: rest, field_name =>
    if c.name = field_name then some c.null_ok else firstFieldNull rest field_name

/-- `db_field_allows_null(table_name, field_name)` (`utils.py` lines
19-24): return the matching column's `null_ok`, or raise
`FieldDoesNotExist` when no column matches. -/
def db_field_allows_null (introspection : String → PyResult (List ColumnDesc))
    (table_name field_name : String) (s : CursorState) :
    PyResult Bool × CursorState :=
  match get_table_description introspection table_name s with
  | (.ok desc, s2) =>
    match firstFieldNull desc field_name with
    | some b => (.ok b, s2)
    | none =>
      (.exn (.fieldDoesNotExist
        ("field " ++ field_name ++ " does not exist on table " ++ table_name)), s2)
  | (.exn e, s2) => (.exn e, s2)

/-! ## `ModelRegistry` (`utils.py` lines 39-56) -/

/-- `apps.all_models`: Django keeps it as `defaultdict(dict)` mapping an
app label to a dict from lower-cased model name to the model class; the
classes are opaque here and represented by handles. -/
abbrev RegisteredModels := List (String × List (String × Nat))

/-- Python `str.lower()` (ASCII fragment). -/
def pyLower (s : String) : String := String.mk (s.data.map Char.toLower)

/-- `apps.all_models[app_label]` with `defaultdict(dict)` semantics:
an absent app label yields an empty dict instead of raising. -/
def all_models_get (all_models : RegisteredModels) (app_label : String) :
    List (String × Nat) :=
  match afind all_models app_label with
  | none => []
  | some inner => inner

/-- `ModelRegistry.is_registered(model_name)`:
`model_name.lower() in apps.all_models[self.app_label]`. -/
def ModelRegistry.is_registered (app_label model_name : String)
    (all_models : RegisteredModels) : Bool :=
  (afind (all_models_get all_models app_label) (pyLower model_name)).isSome

/-- `ModelRegistry.unregister_model(model_name)`:
`del apps.all_models[self.app_label][model_name.lower()]`, re-raising the
`KeyError` of a missing name as `LookupError`. -/
def ModelRegistry.unregister_model (app_label model_name : String)
    (all_models : RegisteredModels) : Except PyExn RegisteredModels :=
  match adel (all_models_get all_models app_label) (pyLower model_name) with
  | none => .error (.lookupError (model_name ++ " not found."))
  | some inner2 => .ok (aset all_models app_label inner2)

/-! ## Result classifiers used in the statements -/

/-- Whether a save outcome is the null-narrowing rejection
(`NullFieldChangedError`). -/
def isNullNarrowingErr {β : Type} : Except DynError β → Bool
  | .error (.nullFieldChanged _) => true
  | _ => false

/-- Whether a save outcome is a normal (non-raising) completion. -/
def isOkResult {β : Type} : Except DynError β → Bool
  | .ok _ => true
  | .error _ => false

/-! ## Lemmas on the dict embedding -/

theorem afind_aset_self {α : Type} (m : List (String × α)) (k : String) (v : α) :
    afind (aset m k v) k = some v := by
  induction m with
  | nil => simp [aset, afind]
  | cons hd tl ih =>
    by_cases h : hd.1 = k <;> simp [aset, afind, h, ih]

theorem aset_aset_cancel {α : Type} (m : List (String × α)) (k : String) (v w : α)
    (h : afind m k = some v) : aset (aset m k w) k v = m := by
  induction m with
  | nil => simp [afind] at h
  | cons hd tl ih =>
    by_cases hk : hd.1 = k
    · obtain ⟨k1, v1⟩ := hd
      simp only at hk
      subst hk
      simp [afind] at h
      simp [aset, h]
    · obtain ⟨k1, v1⟩ := hd
      simp only at hk
      simp [afind, hk] at h
      simp [aset, hk, ih h]

theorem afind_aremoveAll_self {α : Type} (m : List (String × α)) (k : String) :
    afind (aremoveAll m k) k = none := by
  induction m with
  | nil => rfl
  | cons hd tl ih =>
    by_cases hk : hd.1 = k <;> simp [aremoveAll, afind, hk, ih]

theorem afind_aremoveAll_other {α : Type} (m : List (String × α)) (k k2 : String)
    (hne : ¬ k2 = k) :
    afind (aremoveAll m k) k2 = afind m k2 := by
  induction m with
  | nil => rfl
  | cons hd tl ih =>
    by_cases hk : hd.1 = k
    · have hne2 : ¬ k = k2 := fun hc => hne hc.symm
      have hk2 : ¬ hd.1 = k2 := by rw [hk]; exact hne2
      simp [aremoveAll, afind, hk, hk2, hne2, ih]
    · simp [aremoveAll, afind, hk, ih]

theorem afind_adel_self {α : Type} (m m' : List (String × α)) (k : String)
    (h : adel m k = some m') : afind m' k = none := by
  unfold adel at h
  cases hf : afind m k with
  | none => rw [hf] at h; cases h
  | some v =>
    rw [hf] at h
    cases h
    exact afind_aremoveAll_self m k

theorem afind_adel_other {α : Type} (m m' : List (String × α)) (k k2 : String)
    (h : adel m k = some m') (hne : ¬ k2 = k) : afind m' k2 = afind m k2 := by
  unfold adel at h
  cases hf : afind m k with
  | none => rw [hf] at h; cases h
  | some v =>
    rw [hf] at h
    cases h
    exact afind_aremoveAll_other m k k2 hne

theorem getattrModels_pyName (p : OnDeletePolicy) :
    getattrModels p.pyName = some p := by
  cases p <;> rfl

/-- `null_ok` of the first matching column exists and belongs to a
matching column of the description. -/
theorem firstFieldNull_mem (desc : List ColumnDesc) (field_name : String)
    (h : desc.any (fun c => c.name = field_name) = true) :
    ∃ c, c ∈ desc ∧ c.name = field_name ∧
      firstFieldNull desc field_name = some c.null_ok := by
  induction desc with
  | nil => simp at h
  | cons hd tl ih =>
    by_cases hk : hd.name = field_name
    · exact ⟨hd, by simp, hk, by simp [firstFieldNull, hk]⟩
    · simp only [List.any_cons, Bool.or_eq_true, decide_eq_true_eq] at h
      rcases h with h | h
      · exact absurd h hk
      · rcases ih h with ⟨c, hc, hn, hfn⟩
        exact ⟨c, by simp [hc], hn, by simp [firstFieldNull, hk, hfn]⟩

/-- When no column matches, the search comes up empty. -/
theorem firstFieldNull_none (desc : List ColumnDesc) (field_name : String)
    (h : desc.all (fun c => ¬ c.name = field_name) = true) :
    firstFieldNull desc field_name = none := by
  induction desc with
  | nil => rfl
  | cons hd tl ih =>
    simp only [List.all_cons, Bool.and_eq_true, decide_eq_true_eq] at h
    simp [firstFieldNull, h.1, ih h.2]

/-! ## Claim theorems -/

/-- Claim C9: a `FieldSchema` whose `kwargs` mapping contains no `"null"`
entry is treated as not allowing null — the `null` getter returns
Python `False`. -/
theorem fieldschema_null_defaults_to_false (f : FieldSchema)
    (h : afind f.kwargs "null" = none) : f.null = .bool false := by
  unfold FieldSchema.null
  rw [h]

theorem fieldschema_null_defaults_to_false_witness :
    afind (FieldSchema.mk "age"
        (ModelSchema.mk "customer" "default" true none "dynamic")
        "IntegerField" []).kwargs "null" = none ∧
    (FieldSchema.mk "age"
        (ModelSchema.mk "customer" "default" true none "dynamic")
        "IntegerField" []).null = .bool false :=
  ⟨rfl, fieldschema_null_defaults_to_false _ rfl⟩

/-- Claim C6: for every on-delete policy of the fixed mapping,
serializing an options mapping holding the executable policy to its
string token (`_convert_on_delete_to_string`) and resolving it back
(`_convert_on_delete_to_function`) restores the original mapping, and a
mapping without an `on_delete` entry passes through both conversions
unchanged (as does the `None` mapping). -/
theorem on_delete_policy_roundtrip (p : OnDeletePolicy) (kw kw2 : Kwargs)
    (h : afind kw "on_delete" = some (.policy p))
    (h2 : afind kw2 "on_delete" = none) :
    convert_on_delete_to_function (convert_on_delete_to_string (some kw)) =
      .ok (some kw) ∧
    convert_on_delete_to_string (some kw2) = some kw2 ∧
    convert_on_delete_to_function (some kw2) = .ok (some kw2) ∧
    convert_on_delete_to_string none = none ∧
    convert_on_delete_to_function none = .ok none := by
  refine ⟨?_, ?_, ?_, rfl, rfl⟩
  · simp only [convert_on_delete_to_string, h]
    simp only [convert_on_delete_to_function, afind_aset_self,
      getattrModels_pyName]
    rw [aset_aset_cancel kw "on_delete" (.policy p) (.str p.pyName) h]
  · simp only [convert_on_delete_to_string, h2]
  · simp only [convert_on_delete_to_function, h2]

theorem on_delete_policy_roundtrip_witness :
    afind [("on_delete", KwargValue.policy .CASCADE)] "on_delete" =
      some (.policy .CASCADE) ∧
    afind ([("null", KwargValue.bool true)] : Kwargs) "on_delete" = none ∧
    convert_on_delete_to_function
      (convert_on_delete_to_string
        (some [("on_delete", KwargValue.policy .CASCADE)])) =
      .ok (some [("on_delete", KwargValue.policy .CASCADE)]) ∧
    convert_on_delete_to_string (some [("null", KwargValue.bool true)]) =
      some [("null", KwargValue.bool true)] := by
  have h := on_delete_policy_roundtrip OnDeletePolicy.CASCADE
    [("on_delete", KwargValue.policy .CASCADE)]
    [("null", KwargValue.bool true)] rfl rfl
  exact ⟨rfl, rfl, h.1, h.2.1⟩

/-- Claim C7: `db_field_allows_null` returns the matching column's
`null_ok` boolean when the column occurs in the table description, and
raises `FieldDoesNotExist` (a NotFoundError) when no column of the
description has the requested name. -/
theorem db_field_allows_null_found_or_not_found
    (introspection : String → PyResult (List ColumnDesc))
    (table_name field_name : String) (desc : List ColumnDesc) (s : CursorState)
    (hin : introspection table_name = .ok desc) :
    (desc.any (fun c => c.name = field_name) = true →
      ∃ c, c ∈ desc ∧ c.name = field_name ∧
        (db_field_allows_null introspection table_name field_name s).1 =
          .ok c.null_ok) ∧
    (desc.all (fun c => ¬ c.name = field_name) = true →
      ∃ e, (db_field_allows_null introspection table_name field_name s).1 =
          .exn e ∧ e.isNotFoundError = true) := by
  constructor
  · intro hany
    rcases firstFieldNull_mem desc field_name hany with ⟨c, hc, hn, hfn⟩
    refine ⟨c, hc, hn, ?_⟩
    simp [db_field_allows_null, get_table_description, with_db_cursor, hin, hfn]
  · intro hall
    refine ⟨.fieldDoesNotExist
      ("field " ++ field_name ++ " does not exist on table " ++ table_name),
      ?_, rfl⟩
    simp [db_field_allows_null, get_table_description, with_db_cursor, hin,
      firstFieldNull_none desc field_name hall]

theorem db_field_allows_null_found_or_not_found_witness :
    (([ColumnDesc.mk "email" true].any (fun c => c.name = "email")) = true ∧
      ∃ c, c ∈ [ColumnDesc.mk "email" true] ∧ c.name = "email" ∧
        (db_field_allows_null (fun _ => .ok [ColumnDesc.mk "email" true])
          "dynamic_customer" "email" ⟨0⟩).1 = .ok c.null_ok) ∧
    (([ColumnDesc.mk "email" true].all (fun c => ¬ c.name = "phone")) = true ∧
      ∃ e, (db_field_allows_null (fun _ => .ok [ColumnDesc.mk "email" true])
          "dynamic_customer" "phone" ⟨0⟩).1 = .exn e ∧
        e.isNotFoundError = true) := by
  have h1 := db_field_allows_null_found_or_not_found
    (fun _ => .ok [ColumnDesc.mk "email" true]) "dynamic_customer" "email"
    [ColumnDesc.mk "email" true] ⟨0⟩ rfl
  have h2 := db_field_allows_null_found_or_not_found
    (fun _ => .ok [ColumnDesc.mk "email" true]) "dynamic_customer" "phone"
    [ColumnDesc.mk "email" true] ⟨0⟩ rfl
  exact ⟨⟨by decide, h1.1 (by decide)⟩, ⟨by decide, h2.2 (by decide)⟩⟩

/-- Claim C8: `ModelRegistry.unregister_model` removes exactly the entry
keyed by the lower-cased model name when it is registered under the app
label (leaving every other key of that namespace unchanged), and raises
`LookupError` (a NotFoundError) when no such entry is registered. -/
theorem unregister_model_removes_or_raises (app_label model_name : String)
    (all_models : RegisteredModels) :
    (∀ handle : Nat,
      afind (all_models_get all_models app_label) (pyLower model_name) =
        some handle →
      ∃ am2, ModelRegistry.unregister_model app_label model_name all_models =
          .ok am2 ∧
        afind (all_models_get am2 app_label) (pyLower model_name) = none ∧
        (∀ k, ¬ k = pyLower model_name →
          afind (all_models_get am2 app_label) k =
            afind (all_models_get all_models app_label) k)) ∧
    (afind (all_models_get all_models app_label) (pyLower model_name) = none →
      ∃ e, ModelRegistry.unregister_model app_label model_name all_models =
          .error e ∧ e.isNotFoundError = true) := by
  constructor
  · intro handle hreg
    have hdel : adel (all_models_get all_models app_label)
        (pyLower model_name) =
        some (aremoveAll (all_models_get all_models app_label)
          (pyLower model_name)) := by
      unfold adel
      rw [hreg]
    refine ⟨aset all_models app_label
      (aremoveAll (all_models_get all_models app_label) (pyLower model_name)),
      ?_, ?_, ?_⟩
    · unfold ModelRegistry.unregister_model
      rw [hdel]
    · unfold all_models_get
      rw [afind_aset_self]
      exact afind_aremoveAll_self _ _
    · intro k hk
      unfold all_models_get
      rw [afind_aset_self]
      exact afind_aremoveAll_other _ _ _ hk
  · intro hmiss
    have hdel : adel (all_models_get all_models app_label)
        (pyLower model_name) = none := by
      unfold adel
      rw [hmiss]
    refine ⟨.lookupError (model_name ++ " not found."), ?_, rfl⟩
    unfold ModelRegistry.unregister_model
    rw [hdel]

theorem unregister_model_removes_or_raises_witness :
    (afind (all_models_get [("dynamic", [("customer", 7)])] "dynamic")
        (pyLower "Customer") = some 7 ∧
      ∃ am2, ModelRegistry.unregister_model "dynamic" "Customer"
          [("dynamic", [("customer", 7)])] = .ok am2 ∧
        afind (all_models_get am2 "dynamic") (pyLower "Customer") = none ∧
        (∀ k, ¬ k = pyLower "Customer" →
          afind (all_models_get am2 "dynamic") k =
            afind (all_models_get [("dynamic", [("customer", 7)])] "dynamic")
              k)) ∧
    (afind (all_models_get [("dynamic", [("customer", 7)])] "dynamic")
        (pyLower "Order") = none ∧
      ∃ e, ModelRegistry.unregister_model "dynamic" "Order"
          [("dynamic", [("customer", 7)])] = .error e ∧
        e.isNotFoundError = true) := by
  have h1 := (unregister_model_removes_or_raises "dynamic" "Customer"
    [("dynamic", [("customer", 7)])]).1 7 (by decide)
  have h2 := (unregister_model_removes_or_raises "dynamic" "Order"
    [("dynamic", [("customer", 7)])]).2 (by decide)
  exact ⟨⟨by decide, h1⟩, ⟨by decide, h2⟩⟩

/-- Claim C2 (code bug evidence): `_db_cursor` has no `try`/`finally`
around its `yield`, so when the introspection body raises, the exception
is thrown into the generator at the `yield` and the `cursor.close()`
after it never runs.  Starting from zero open cursors, a failing
`_get_table_description` leaves one cursor open while propagating the
backend's exception — and so does a failing `db_table_exists` — whereas
the successful path does close the cursor. -/
theorem db_cursor_left_open_on_introspection_failure :
    (get_table_description (fun _ => .exn (.dbError "introspection failed"))
        "dynamic_customer" ⟨0⟩).2.openCursors = 1 ∧
    (get_table_description (fun _ => .exn (.dbError "introspection failed"))
        "dynamic_customer" ⟨0⟩).1 = .exn (.dbError "introspection failed") ∧
    (db_table_exists (.exn (.dbError "introspection failed"))
        "dynamic_customer" ⟨0⟩).2.openCursors = 1 ∧
    (db_field_allows_null (fun _ => .exn (.dbError "introspection failed"))
        "dynamic_customer" "email" ⟨0⟩).2.openCursors = 1 ∧
    (get_table_description (fun _ => .ok []) "dynamic_customer"
        ⟨0⟩).2.openCursors = 0 := by
  exact ⟨rfl, rfl, rfl, rfl, rfl⟩

/-- Claim C5 (counterexample): with namespace `"dynamic"` and model name
`"my model"`, the code derives the physical table name
`"dynamic_my_model"`, which differs from
`{namespace}_{slugify(name)} = "dynamic_my-model"`, because the code
additionally replaces the slug's hyphens with underscores; the column
name for field `"first name"` likewise differs from its slug; and an
explicit override set to the empty string is ignored in favor of the
derived default rather than being used. -/
theorem physical_names_differ_from_plain_slug :
    (ModelSchema.mk "my model" "default" true none "dynamic").db_table =
      "dynamic_my_model" ∧
    ¬ (ModelSchema.mk "my model" "default" true none "dynamic").db_table =
      "dynamic" ++ "_" ++ slugify "my model" ∧
    ¬ (FieldSchema.mk "first name"
        (ModelSchema.mk "customer" "default" true none "dynamic")
        "TextField" []).db_column = slugify "first name" ∧
    ¬ (ModelSchema.mk "x" "default" true (some "") "dynamic").db_table =
      "" := by
  refine ⟨by decide, by decide, by decide, by decide⟩

/-- Claim C5 (amended): the physical table name equals the explicit
override when a non-empty one is set, and otherwise (no override, or an
override set to the falsy empty string) equals the namespace joined by
an underscore with the slugified model name in which hyphens are
replaced by underscores; a field's physical column name equals the
slugified field name with hyphens replaced by underscores. -/
theorem physical_table_and_column_names (m : ModelSchema) (f : FieldSchema) :
    (∀ t, m.db_table_name = some t → ¬ t = "" → m.db_table = t) ∧
    (m.db_table_name = none ∨ m.db_table_name = some "" →
      m.db_table =
        m.app_label ++ "_" ++ replaceDashWithUnderscore (slugify m.name)) ∧
    f.db_column = replaceDashWithUnderscore (slugify f.name) := by
  refine ⟨?_, ?_, rfl⟩
  · intro t ht hne
    unfold ModelSchema.db_table
    rw [ht]
    simp [hne]
  · intro hdefault
    cases hdefault with
    | inl hnone =>
      unfold ModelSchema.db_table
      rw [hnone]
      rfl
    | inr hempty =>
      unfold ModelSchema.db_table
      rw [hempty]
      rfl

theorem physical_table_and_column_names_witness :
    (ModelSchema.mk "my model" "default" true (some "legacy_table")
      "dynamic").db_table = "legacy_table" ∧
    (ModelSchema.mk "my model" "default" true none "dynamic").db_table =
      "dynamic_my_model" ∧
    (ModelSchema.mk "x" "default" true (some "") "dynamic").db_table =
      "dynamic_x" ∧
    (FieldSchema.mk "first name"
      (ModelSchema.mk "customer" "default" true none "dynamic")
      "TextField" []).db_column = "first_name" := by
  refine ⟨(physical_table_and_column_names
      (ModelSchema.mk "my model" "default" true (some "legacy_table")
        "dynamic")
      (FieldSchema.mk "first name"
        (ModelSchema.mk "customer" "default" true none "dynamic")
        "TextField" [])).1 "legacy_table" rfl (by decide), ?_, ?_, ?_⟩
  · have h := (physical_table_and_column_names
      (ModelSchema.mk "my model" "default" true none "dynamic")
      (FieldSchema.mk "first name"
        (ModelSchema.mk "customer" "default" true none "dynamic")
        "TextField" [])).2.1 (Or.inl rfl)
    rw [h]
    decide
  · have h := (physical_table_and_column_names
      (ModelSchema.mk "x" "default" true (some "") "dynamic")
      (FieldSchema.mk "first name"
        (ModelSchema.mk "customer" "default" true none "dynamic")
        "TextField" [])).2.1 (Or.inr rfl)
    rw [h]
    decide
  · have h := (physical_table_and_column_names
      (ModelSchema.mk "my model" "default" true none "dynamic")
      (FieldSchema.mk "first name"
        (ModelSchema.mk "customer" "default" true none "dynamic")
        "TextField" [])).2.2
    rw [h]
    decide

/-- `validate` raises `NullFieldChangedError` whenever the
construction-time null state is truthy and the current one is not. -/
theorem validate_null_narrowing (i : FieldSchemaInstance)
    (h1 : i.initial_null.truthy = true)
    (h2 : (i.schema.null).truthy = false) :
    i.validate = .error (.nullFieldChanged
      ("Cannot change NULL field " ++ i.schema.name ++ " to NOT NULL")) := by
  unfold FieldSchemaInstance.validate
  rw [h1, h2]
  rfl

/-- A validation failure short-circuits `save`: the exception propagates
and the state is untouched (no record persisted, no DDL executed). -/
theorem save_of_validate_error (i : FieldSchemaInstance) (db : DbState)
    (e : DynError) (h : i.validate = .error e) : i.save db = (.error e, db) := by
  unfold FieldSchemaInstance.save
  rw [h]

/-- Claim C1: for a `FieldSchema` whose stored options currently make it
allow null, saving the instance after switching the option to `False`
raises `NullFieldChangedError` — a ValidationError — and returns with the
persistent state untouched: no DDL was executed and the stored definition
record is unchanged. -/
theorem null_to_not_null_save_rejected (f : FieldSchema) (db : DbState)
    (h : (f.null).truthy = true) :
    ∃ msg, ((FieldSchemaInstance.mk_init f).set_null (.bool false)).save db =
      (.error (.nullFieldChanged msg), db) ∧
      (DynError.nullFieldChanged msg).isValidationError = true := by
  refine ⟨"Cannot change NULL field " ++ f.name ++ " to NOT NULL", ?_, rfl⟩
  apply save_of_validate_error
  have hnull : ((FieldSchemaInstance.mk_init f).set_null
      (.bool false)).schema.null = .bool false := by
    show (f.set_null (.bool false)).null = .bool false
    unfold FieldSchema.set_null FieldSchema.null
    simp [afind_aset_self]
  have h2 : (((FieldSchemaInstance.mk_init f).set_null
      (.bool false)).schema.null).truthy = false := by
    rw [hnull]
    rfl
  exact validate_null_narrowing _ h h2

theorem null_to_not_null_save_rejected_witness :
    ((FieldSchema.mk "email"
      (ModelSchema.mk "customer" "default" true none "dynamic")
      "TextField" [("null", KwargValue.bool true)]).null).truthy = true ∧
    ∃ msg, ((FieldSchemaInstance.mk_init (FieldSchema.mk "email"
        (ModelSchema.mk "customer" "default" true none "dynamic")
        "TextField" [("null", KwargValue.bool true)])).set_null
          (.bool false)).save (DbState.mk [] [] []) =
      (.error (.nullFieldChanged msg), DbState.mk [] [] []) ∧
      (DynError.nullFieldChanged msg).isValidationError = true :=
  ⟨by decide, null_to_not_null_save_rejected _ _ (by decide)⟩

/-- Claim C3: saving a `FieldSchema` whose name is on the reserved
blocklist (such as `"_declared"`) raises `InvalidFieldNameError` and
returns with the persistent state untouched: the record was not
persisted and no DDL was executed. -/
theorem prohibited_name_save_rejected (f : FieldSchema) (db : DbState)
    (h : get_prohibited_names.contains f.name = true) :
    (FieldSchemaInstance.mk_init f).save db =
      (.error (.invalidFieldName (f.name ++ " is not a valid field name")),
        db) := by
  apply save_of_validate_error
  have hmem : f.name ∈ get_prohibited_names := by simpa using h
  unfold FieldSchemaInstance.validate FieldSchemaInstance.mk_init
  simp [Bool.and_not_self, hmem]

theorem prohibited_name_save_rejected_witness :
    get_prohibited_names.contains (FieldSchema.mk "_declared"
      (ModelSchema.mk "customer" "default" true none "dynamic")
      "TextField" []).name = true ∧
    (FieldSchemaInstance.mk_init (FieldSchema.mk "_declared"
      (ModelSchema.mk "customer" "default" true none "dynamic")
      "TextField" [])).save (DbState.mk [] [] []) =
      (.error (.invalidFieldName ("_declared" ++ " is not a valid field name")),
        DbState.mk [] [] []) :=
  ⟨by decide, prohibited_name_save_rejected _ _ (by decide)⟩

/-- Claim C4: an unmanaged `ModelSchema` constructs no schema editor, and
neither its `save`/`delete` nor the `save`/`delete` of a `FieldSchema`
owned by it appends any DDL action against the physical table. -/
theorem unmanaged_definitions_perform_no_ddl (m : ModelSchema)
    (f : FieldSchema) (db : DbState)
    (hm : m.managed = false) (hf : f.model_schema = m) :
    (ModelSchemaInstance.mk_init m).has_schema_editor = false ∧
    ((ModelSchemaInstance.mk_init m).save db).2.ddl = db.ddl ∧
    ((ModelSchemaInstance.mk_init m).delete db).ddl = db.ddl ∧
    (FieldSchemaInstance.mk_init f).has_schema_editor = false ∧
    ((FieldSchemaInstance.mk_init f).save db).2.ddl = db.ddl ∧
    ((FieldSchemaInstance.mk_init f).delete db).ddl = db.ddl := by
  have hfm : f.model_schema.managed = false := by rw [hf]; exact hm
  refine ⟨hm, ?_, ?_, hfm, ?_, ?_⟩
  · simp [ModelSchemaInstance.save, ModelSchemaInstance.mk_init, hm]
  · simp [ModelSchemaInstance.delete, ModelSchemaInstance.mk_init, hm]
  · cases hv : (FieldSchemaInstance.mk_init f).validate with
    | error e => simp [FieldSchemaInstance.save, hv]
    | ok u =>
      have he : (FieldSchemaInstance.mk_init f).has_schema_editor = false :=
        hfm
      simp [FieldSchemaInstance.save, hv, he]
  · simp [FieldSchemaInstance.delete, FieldSchemaInstance.mk_init, hfm]

theorem unmanaged_definitions_perform_no_ddl_witness :
    (ModelSchema.mk "ledger" "default" false none "dynamic").managed =
      false ∧
    (FieldSchema.mk "amount"
      (ModelSchema.mk "ledger" "default" false none "dynamic")
      "IntegerField" []).model_schema =
      ModelSchema.mk "ledger" "default" false none "dynamic" ∧
    ((ModelSchemaInstance.mk_init
      (ModelSchema.mk "ledger" "default" false none "dynamic")).save
        (DbState.mk [] [] [])).2.ddl = (DbState.mk [] [] []).ddl ∧
    ((FieldSchemaInstance.mk_init (FieldSchema.mk "amount"
      (ModelSchema.mk "ledger" "default" false none "dynamic")
      "IntegerField" [])).save (DbState.mk [] [] [])).2.ddl =
      (DbState.mk [] [] []).ddl := by
  have h := unmanaged_definitions_perform_no_ddl
    (ModelSchema.mk "ledger" "default" false none "dynamic")
    (FieldSchema.mk "amount"
      (ModelSchema.mk "ledger" "default" false none "dynamic")
      "IntegerField" [])
    (DbState.mk [] [] []) rfl rfl
  exact ⟨rfl, rfl, h.2.1, h.2.2.2.2.1⟩

/-- Claim C10: the null-narrowing guard compares against the null state
captured at instance construction, not the last saved state — `save`
raises `NullFieldChangedError` exactly when the construction-time null is
truthy and the current null is not; consequently, on an instance
constructed with a falsy null option (and an unreserved name), saving
with `null=True` returns the instance unchanged and saving that instance
again with `null=False` also succeeds. -/
theorem null_guard_uses_construction_time_null
    (i : FieldSchemaInstance) (f : FieldSchema) (db db2 : DbState)
    (hf : (f.null).truthy = false)
    (hname : get_prohibited_names.contains f.name = false) :
    (isNullNarrowingErr (i.save db).1 = true ↔
      (i.initial_null.truthy = true ∧ (i.schema.null).truthy = false)) ∧
    (((FieldSchemaInstance.mk_init f).set_null (.bool true)).save db).1 =
      .ok ((FieldSchemaInstance.mk_init f).set_null (.bool true)) ∧
    isOkResult
      ((((FieldSchemaInstance.mk_init f).set_null (.bool true)).set_null
        (.bool false)).save db2).1 = true := by
  have hnm : f.name ∉ get_prohibited_names := by simpa using hname
  have hv1 : ((FieldSchemaInstance.mk_init f).set_null (.bool true)).validate =
      .ok () := by
    unfold FieldSchemaInstance.validate FieldSchemaInstance.mk_init
      FieldSchemaInstance.set_null FieldSchema.set_null
    simp [hf, hnm]
  have hv2 : (((FieldSchemaInstance.mk_init f).set_null (.bool true)).set_null
      (.bool false)).validate = .ok () := by
    unfold FieldSchemaInstance.validate FieldSchemaInstance.mk_init
      FieldSchemaInstance.set_null FieldSchema.set_null
    simp [hf, hnm]
  refine ⟨?_, ?_, ?_⟩
  · unfold FieldSchemaInstance.save FieldSchemaInstance.validate
    cases h1 : i.initial_null.truthy <;>
      cases h2 : (i.schema.null).truthy <;>
        cases h3 : get_prohibited_names.contains i.schema.name <;>
          simp [h1, h2, h3, isNullNarrowingErr]
  · unfold FieldSchemaInstance.save
    rw [hv1]
  · unfold FieldSchemaInstance.save
    rw [hv2]
    simp [isOkResult]

theorem null_guard_uses_construction_time_null_witness :
    ((FieldSchema.mk "email"
      (ModelSchema.mk "customer" "default" true none "dynamic")
      "TextField" []).null).truthy = false ∧
    get_prohibited_names.contains (FieldSchema.mk "email"
      (ModelSchema.mk "customer" "default" true none "dynamic")
      "TextField" []).name = false ∧
    ((isNullNarrowingErr ((FieldSchemaInstance.mk_init (FieldSchema.mk "email"
        (ModelSchema.mk "customer" "default" true none "dynamic")
        "TextField" [])).save (DbState.mk [] [] [])).1 = true ↔
      ((FieldSchemaInstance.mk_init (FieldSchema.mk "email"
        (ModelSchema.mk "customer" "default" true none "dynamic")
        "TextField" [])).initial_null.truthy = true ∧
       ((FieldSchemaInstance.mk_init (FieldSchema.mk "email"
        (ModelSchema.mk "customer" "default" true none "dynamic")
        "TextField" [])).schema.null).truthy = false)) ∧
    (((FieldSchemaInstance.mk_init (FieldSchema.mk "email"
        (ModelSchema.mk "customer" "default" true none "dynamic")
        "TextField" [])).set_null (.bool true)).save
          (DbState.mk [] [] [])).1 =
      .ok ((FieldSchemaInstance.mk_init (FieldSchema.mk "email"
        (ModelSchema.mk "customer" "default" true none "dynamic")
        "TextField" [])).set_null (.bool true)) ∧
    isOkResult
      ((((FieldSchemaInstance.mk_init (FieldSchema.mk "email"
        (ModelSchema.mk "customer" "default" true none "dynamic")
        "TextField" [])).set_null (.bool true)).set_null
          (.bool false)).save (DbState.mk [] [] [])).1 = true) :=
  ⟨by decide, by decide,
    null_guard_uses_construction_time_null
      (FieldSchemaInstance.mk_init (FieldSchema.mk "email"
        (ModelSchema.mk "customer" "default" true none "dynamic")
        "TextField" []))
      (FieldSchema.mk "email"
        (ModelSchema.mk "customer" "default" true none "dynamic")
        "TextField" [])
      (DbState.mk [] [] []) (DbState.mk [] [] [])
      (by decide) (by decide)⟩
